import Mathlib

/-!
# Verification of the swimlib F5 upgrade workflow against its specification

Shallow embedding of the parts of `swimlib` that the checked claims concern:

* the two duplicated SFTP artifact-transfer modules
  (`swimlib/f5/actions/image_copy.py` and `swimlib/image_copy.py`),
* the two duplicated staging modules
  (`swimlib/f5/actions/image_stage.py` and `swimlib/image_stage.py`),
* the activation module (`swimlib/f5/actions/image_upgrade.py`),
* the orchestrator `main` of `swimlib/f5/run.py` together with the
  resolution logic of `ASDBClient.resolve_execution` (`swimlib/asdb.py`),
* the SSH context-manager semantics of `swimlib/ssh_connect.py` as used by
  `validate_remote_connection` in `swimlib/f5/run.py`.

Remote devices are modelled by explicit state records (remote file system,
query outputs, exit statuses); remote interactions are recorded as event
traces, and Python exceptions are modelled with `Except` over an explicit
error type.
-/

/-- Python-level exceptions that the embedded code can raise.
`assertionError` models a failed `assert` statement; the remaining
constructors model the custom exception classes of `swimlib/image_copy.py`
and `swimlib/image_stage.py`. -/
inductive PyError where
  | assertionError (msg : String)
  | checksumMismatchError (msg : String)
  | imageTransferError (msg : String)
  | imageStagingError (msg : String)
deriving DecidableEq, Repr

/-- An artifact descriptor as consumed by the transfer modules: the
`local_path`, `remote_path` and `md5` keys of the artifact dict. -/
structure CopyArtifact where
  local_path : String
  remote_path : String
  md5 : String
deriving DecidableEq, Repr

/-- One remote interaction performed by a transfer module: an SFTP `stat`,
an `md5sum` command over SSH, or an SFTP `put`. -/
inductive CopyEvent where
  | stat (p : String)
  | md5sum (p : String)
  | put (l r : String)
deriving DecidableEq, Repr

/-- State of the remote device seen by the transfer modules.
`file p = some d` means a file is present at remote path `p` and its
content has MD5 digest `d` (`md5sum` of an existing file always prints its
digest); `file p = none` means the path is absent, in which case
`sftp.stat` raises `FileNotFoundError`.  `putDigest l r` is the digest the
remote file at `r` has after `sftp.put l r` completes (it differs from the
artifact's expected digest when the transfer corrupts the file). -/
structure RemoteFS where
  file : String → Option String
  putDigest : String → String → String

/-- `sftp.put l r` updates the remote file system at `r` with the digest
produced by this transfer. -/
def RemoteFS.putFile (fs : RemoteFS) (l r : String) : RemoteFS :=
  { fs with file := fun p => if p = r then some (fs.putDigest l r) else fs.file p }

namespace F5Copy

/-!
Embedding of `swimlib/f5/actions/image_copy.py`.

`compute_remote_md5` runs `md5sum path` and returns the first
whitespace-separated field of stdout; for a present file that field is the
file's digest.  The SFTP session open/close calls are not modelled: the
claims are about `stat`/`md5sum`/`put` interactions and errors.
-/

/-- Body of the per-artifact iteration of
`f5.actions.image_copy.sftp_copy_artifacts`: skip when the file exists with
a matching digest, otherwise `sftp.put` and re-check the digest, raising
`AssertionError` (`assert remote_md5 == expected_md5`) on mismatch.
Returns the events performed for this artifact and either the updated
remote state (continue with the next artifact) or the escaping error. -/
def copyOne (fs : RemoteFS) (a : CopyArtifact) :
    List CopyEvent × Except PyError RemoteFS :=
  match fs.file a.remote_path with
  | some d =>
      -- sftp.stat succeeds; compute_remote_md5 returns the remote digest
      if d = a.md5 then
        ([.stat a.remote_path, .md5sum a.remote_path], .ok fs)
      else
        -- silent fall-through to transfer-and-validate
        let fs' := fs.putFile a.local_path a.remote_path
        let d' := fs.putDigest a.local_path a.remote_path
        if d' = a.md5 then
          ([.stat a.remote_path, .md5sum a.remote_path,
            .put a.local_path a.remote_path, .md5sum a.remote_path], .ok fs')
        else
          ([.stat a.remote_path, .md5sum a.remote_path,
            .put a.local_path a.remote_path, .md5sum a.remote_path],
           .error (.assertionError ("MD5 mismatch: " ++ a.remote_path)))
  | none =>
      -- sftp.stat raises FileNotFoundError, which the except clause passes
      let fs' := fs.putFile a.local_path a.remote_path
      let d' := fs.putDigest a.local_path a.remote_path
      if d' = a.md5 then
        ([.stat a.remote_path, .put a.local_path a.remote_path,
          .md5sum a.remote_path], .ok fs')
      else
        ([.stat a.remote_path, .put a.local_path a.remote_path,
          .md5sum a.remote_path],
         .error (.assertionError ("MD5 mismatch: " ++ a.remote_path)))

/-- The `for artifact in artifacts` loop of
`f5.actions.image_copy.sftp_copy_artifacts`: an uncaught exception from one
iteration aborts the whole loop. -/
def sftp_copy_artifacts (fs : RemoteFS) :
    List CopyArtifact → List CopyEvent × Except PyError RemoteFS
  | [] => ([], .ok fs)
  | a :: rest =>
      match copyOne fs a with
      | (ev, .ok fs') =>
          let (ev2, r2) := sftp_copy_artifacts fs' rest
          (ev ++ ev2, r2)
      | (ev, .error e) => (ev, .error e)

end F5Copy

namespace LibCopy

/-!
Embedding of `swimlib/image_copy.py`.

`compute_remote_md5` raises `ChecksumMismatchError("Unable to compute MD5
for {path}")` when stdout is empty (absent file); for a present file it
returns the digest.  In `sftp_copy_artifacts` the inner `try` only catches
`FileNotFoundError` from `sftp.stat`; a `ChecksumMismatchError` raised for
a present file with a wrong digest escapes the loop, is re-raised
unchanged by the outer `except (ImageTransferError, ChecksumMismatchError)`
clause, and aborts the operation.
-/

/-- Body of the per-artifact iteration of
`swimlib.image_copy.sftp_copy_artifacts`: if the remote file exists, its
digest is validated and a mismatch raises `ChecksumMismatchError`;
otherwise the file is transferred and the digest re-checked, a mismatch
raising `ChecksumMismatchError` naming the remote path. -/
def copyOne (fs : RemoteFS) (a : CopyArtifact) :
    List CopyEvent × Except PyError RemoteFS :=
  match fs.file a.remote_path with
  | some d =>
      if d ≠ a.md5 then
        ([.stat a.remote_path, .md5sum a.remote_path],
         .error (.checksumMismatchError
           ("MD5 mismatch for " ++ a.remote_path ++ ": expected " ++ a.md5
             ++ ", got " ++ d)))
      else
        -- file exists and checksum valid, skip
        ([.stat a.remote_path, .md5sum a.remote_path], .ok fs)
  | none =>
      let fs' := fs.putFile a.local_path a.remote_path
      let d' := fs.putDigest a.local_path a.remote_path
      if d' ≠ a.md5 then
        ([.stat a.remote_path, .put a.local_path a.remote_path,
          .md5sum a.remote_path],
         .error (.checksumMismatchError
           ("MD5 mismatch after transfer for " ++ a.remote_path
             ++ ": expected " ++ a.md5 ++ ", got " ++ d')))
      else
        ([.stat a.remote_path, .put a.local_path a.remote_path,
          .md5sum a.remote_path], .ok fs')

/-- The artifact loop of `swimlib.image_copy.sftp_copy_artifacts`; the
outer `try` re-raises `ImageTransferError` and `ChecksumMismatchError`
unchanged, so an error from one iteration aborts the whole loop. -/
def sftp_copy_artifacts (fs : RemoteFS) :
    List CopyArtifact → List CopyEvent × Except PyError RemoteFS
  | [] => ([], .ok fs)
  | a :: rest =>
      match copyOne fs a with
      | (ev, .ok fs') =>
          let (ev2, r2) := sftp_copy_artifacts fs' rest
          (ev ++ ev2, r2)
      | (ev, .error e) => (ev, .error e)

end LibCopy

/-- An artifact descriptor as consumed by the staging modules: the
`remote_path` and `filename` keys of the artifact dict
(`f5/actions/image_stage.py` reads only `remote_path`;
`swimlib/image_stage.py` reads both). -/
structure StageArtifact where
  remote_path : String
  filename : String
deriving DecidableEq, Repr

/-- The literal shell command issued by `get_current_version`:
`tmsh show sys version | grep Product | awk '{print $2}'`. -/
def versionCmd : String :=
  "tmsh show sys version | grep Product | awk \x27\x7bprint $2\x7d\x27"

/-- The literal shell command issued by `get_target_volume`:
`tmsh show sys software status | grep -v yes | grep HD | head -1 | awk '{print $1}'`. -/
def volumeCmd : String :=
  "tmsh show sys software status | grep -v yes | grep HD | head -1 | awk \x27\x7bprint $1\x7d\x27"

/-- The install command issued per artifact:
`tmsh install sys software image {remote_path} volume {target_volume}`. -/
def installCmd (remotePath targetVolume : String) : String :=
  "tmsh install sys software image " ++ remotePath ++ " volume " ++ targetVolume

/-- State of the remote device seen by the staging modules: the stripped
stdout of the version query and of the inactive-volume query, and, for
each install command string, its exit status (`recv_exit_status`) and
stripped stderr. -/
structure StageDevice where
  versionOut : String
  volumeOut : String
  installExit : String → Nat
  installStderr : String → String

namespace F5Stage

/-!
Embedding of `swimlib/f5/actions/image_stage.py`.

Traces record the remote command strings passed to `exec_command`, in
order.  This variant performs no error checking: `get_current_version` and
`get_target_volume` return the stripped stdout as-is (possibly empty), and
`stage_artifacts` waits for each install's exit status
(`stdout.channel.recv_exit_status()`) but ignores its value, so it can
raise nothing.
-/

/-- `f5.actions.image_stage.get_current_version`: one `exec_command`, the
stripped stdout returned unchecked. -/
def get_current_version (dev : StageDevice) : List String × String :=
  ([versionCmd], dev.versionOut)

/-- `f5.actions.image_stage.get_target_volume`: one `exec_command`, the
stripped stdout returned unchecked (empty when no inactive `HD` volume
line survives the filter). -/
def get_target_volume (dev : StageDevice) : List String × String :=
  ([volumeCmd], dev.volumeOut)

/-- The install loop of `f5.actions.image_stage.stage_artifacts`: one
install command per artifact; the exit status is awaited but never
examined, so every artifact in the list is processed. -/
def installLoop (targetVolume : String) : List StageArtifact → List String
  | [] => []
  | a :: rest => installCmd a.remote_path targetVolume :: installLoop targetVolume rest

/-- `f5.actions.image_stage.stage_artifacts`: returns immediately after the
version query when the current version equals the target, otherwise
queries the target volume and installs every artifact; never raises. -/
def stage_artifacts (dev : StageDevice) (artifacts : List StageArtifact)
    (target_version : String) : List String × Except PyError Unit :=
  if dev.versionOut = target_version then ([versionCmd], .ok ())
  else
    (versionCmd :: volumeCmd :: installLoop dev.volumeOut artifacts, .ok ())

end F5Stage

namespace LibStage

/-!
Embedding of `swimlib/image_stage.py`.

In `get_current_version` and `get_target_volume` the guarding
`ImageStagingError` raised for empty output is itself caught by the
enclosing `except Exception` clause and re-wrapped, producing the messages
`"Failed to get current version: Unable to determine current version"` and
`"Failed to get target volume: Unable to determine target volume"`; the
outer `try` of `stage_artifacts` re-raises `ImageStagingError` unchanged.
-/

/-- `swimlib.image_stage.get_current_version`: raises `ImageStagingError`
(re-wrapped by its own `except Exception` clause) when the version query
output is empty. -/
def get_current_version (dev : StageDevice) : List String × Except PyError String :=
  if dev.versionOut = "" then
    ([versionCmd],
     .error (.imageStagingError
       "Failed to get current version: Unable to determine current version"))
  else ([versionCmd], .ok dev.versionOut)

/-- `swimlib.image_stage.get_target_volume`: raises `ImageStagingError`
(re-wrapped by its own `except Exception` clause) when the volume query
output is empty. -/
def get_target_volume (dev : StageDevice) : List String × Except PyError String :=
  if dev.volumeOut = "" then
    ([volumeCmd],
     .error (.imageStagingError
       "Failed to get target volume: Unable to determine target volume"))
  else ([volumeCmd], .ok dev.volumeOut)

/-- The install loop of `swimlib.image_stage.stage_artifacts`: per
artifact, issue the install command and check `recv_exit_status`; a
non-zero status raises `ImageStagingError` naming the artifact's filename
and the command's stderr, aborting the remaining artifacts. -/
def installLoop (dev : StageDevice) (targetVolume : String) :
    List StageArtifact → List String × Except PyError Unit
  | [] => ([], .ok ())
  | a :: rest =>
      let c := installCmd a.remote_path targetVolume
      if dev.installExit c = 0 then
        let (ev, r) := installLoop dev targetVolume rest
        (c :: ev, r)
      else
        ([c],
         .error (.imageStagingError
           ("Failed to stage " ++ a.filename ++ ": " ++ dev.installStderr c)))

/-- `swimlib.image_stage.stage_artifacts`: version check (no-op when equal
to the target), inactive-volume determination (error when none), then the
fail-fast install loop. -/
def stage_artifacts (dev : StageDevice) (artifacts : List StageArtifact)
    (target_version : String) : List String × Except PyError Unit :=
  match get_current_version dev with
  | (ev, .error e) => (ev, .error e)
  | (ev, .ok current) =>
      if current = target_version then (ev, .ok ())
      else
        match get_target_volume dev with
        | (ev2, .error e) => (ev ++ ev2, .error e)
        | (ev2, .ok vol) =>
            let (ev3, r) := installLoop dev vol artifacts
            (ev ++ ev2 ++ ev3, r)

end LibStage

/-- The reboot command issued by
`f5.actions.image_upgrade.upgrade_to_volume`:
`tmsh reboot volume {target_volume}` (fire-and-forget, no status check). -/
def rebootCmd (targetVolume : String) : String :=
  "tmsh reboot volume " ++ targetVolume

/-- Embedding of `f5.actions.image_upgrade.upgrade_to_volume`: a single
`exec_command` of the reboot command; nothing is awaited or verified. -/
def upgrade_to_volume (targetVolume : String) : List String :=
  [rebootCmd targetVolume]

/-- Python's `str.lower()` (the inputs of interest are ASCII execution
type strings), character by character. -/
def pyLower (s : String) : String :=
  ⟨s.data.map Char.toLower⟩

/-- The branch taken by `ASDBClient.resolve_execution` (`swimlib/asdb.py`):
`pass_device_execution` (process exit 0, status "completed") exactly when
`str(self.device.get("execution_type", "")).lower() == "dry_run"`;
otherwise `fail_device_execution` (process exit 1, status "failed").
`none` models a client device context without an `execution_type` key. -/
def resolveExecutionPasses (clientExecutionType : Option String) : Bool :=
  pyLower (clientExecutionType.getD "") = "dry_run"

/-- `swimlib/f5/run.py` constructs its module-level client as
`asdb = ASDBClient()` — no `device` argument — so `self.device` is the
empty dict and has no `execution_type` key. -/
def runModuleClientExecutionType : Option String := none

/-- The workflow steps `main` of `swimlib/f5/run.py` can invoke, in source
order: the three pre-validation steps, then the three depth-gated action
phases. -/
inductive Phase where
  | lookup    -- validate_target_software
  | connect   -- validate_remote_connection
  | storage   -- check_remote_storage
  | copy      -- run_image_copy
  | stage     -- run_image_stage
  | upgrade   -- run_image_upgrade
deriving DecidableEq, Repr

/-- Result of connection establishment in `validate_remote_connection`. -/
inductive ConnectResult where
  | ok
  | authError   -- SSHAuthError
  | otherError  -- any other exception
deriving DecidableEq, Repr

/-- Inputs of one `main` run: the device's `execution_type` field (`none`
models a device JSON without the key, for which `device.get` supplies the
default `"dry_run"`), and whether each step's underlying operation
succeeds against the remote device. -/
structure RunWorld where
  executionType : Option String
  lookupOk : Bool
  connect : ConnectResult
  storageOk : Bool
  copyOk : Bool
  stageOk : Bool
  upgradeOk : Bool

/-- How the `main` process of `swimlib/f5/run.py` terminates.
`completed` means `main` returned normally (process exit status 0).
`crashed` models every failure path: each `except` handler in `run.py`
first calls `asdb.pre_validation_status(device, status)` with two
positional arguments, but `ASDBClient.pre_validation_status` accepts only
`conn_status`, so the handler itself raises `TypeError`, which propagates
out of `main` uncaught (process exit status 1; `resolve_execution` is
never reached). -/
inductive RunOutcome where
  | completed
  | crashed
deriving DecidableEq, Repr

/-- The three always-run pre-validation steps of `main`, stopping at the
first failure (whose handler crashes the process). -/
def preValidation (w : RunWorld) : List Phase × RunOutcome :=
  if !w.lookupOk then ([.lookup], .crashed)
  else if w.connect ≠ .ok then ([.lookup, .connect], .crashed)
  else if !w.storageOk then ([.lookup, .connect, .storage], .crashed)
  else ([.lookup, .connect, .storage], .completed)

/-- The `if execution_type == "image_upgrade"` gate of `main`. -/
def upgradeGate (w : RunWorld) (et : String) (acc : List Phase) :
    List Phase × RunOutcome :=
  if et = "image_upgrade" then
    if !w.upgradeOk then (acc ++ [.upgrade], .crashed)
    else (acc ++ [.upgrade], .completed)
  else (acc, .completed)

/-- The `if execution_type in ("image_stage", "image_upgrade")` gate of
`main`. -/
def stageGate (w : RunWorld) (et : String) (acc : List Phase) :
    List Phase × RunOutcome :=
  if et = "image_stage" ∨ et = "image_upgrade" then
    if !w.stageOk then (acc ++ [.stage], .crashed)
    else upgradeGate w et (acc ++ [.stage])
  else upgradeGate w et acc

/-- The `if execution_type in ("image_copy", "image_stage",
"image_upgrade")` gate of `main`. -/
def copyGate (w : RunWorld) (et : String) (acc : List Phase) :
    List Phase × RunOutcome :=
  if et = "image_copy" ∨ et = "image_stage" ∨ et = "image_upgrade" then
    if !w.copyOk then (acc ++ [.copy], .crashed)
    else stageGate w et (acc ++ [.copy])
  else stageGate w et acc

/-- Embedding of `main` in `swimlib/f5/run.py`: the trace of steps it
invokes, in order, and how the process terminates.
`execution_type = device.get("execution_type", "dry_run")`; the three
pre-validation steps always run; the run returns right after them when
`execution_type == "dry_run"`; the three action phases are gated by the
three sequential `if` statements on `execution_type`. -/
def mainRun (w : RunWorld) : List Phase × RunOutcome :=
  let et := w.executionType.getD "dry_run"
  match preValidation w with
  | (ev, .crashed) => (ev, .crashed)
  | (ev, .completed) =>
      if et = "dry_run" then (ev, .completed)
      else copyGate w et ev

/-- All remote operations of a run succeed. -/
def RunWorld.allOk (w : RunWorld) : Prop :=
  w.lookupOk = true ∧ w.connect = .ok ∧ w.storageOk = true ∧
    w.copyOk = true ∧ w.stageOk = true ∧ w.upgradeOk = true

instance (w : RunWorld) : Decidable w.allOk :=
  inferInstanceAs (Decidable (w.lookupOk = true ∧ w.connect = .ok ∧
    w.storageOk = true ∧ w.copyOk = true ∧ w.stageOk = true ∧
    w.upgradeOk = true))

/-!
SSH session / with-statement model for `validate_remote_connection`
(`swimlib/f5/run.py`) and `SSHConnection` (`swimlib/ssh_connect.py`).
-/

/-- The pool of SSH clients created so far: `closedOf i` tells whether
client `i` has had `close()` invoked on it. -/
structure SSHWorld where
  nextId : Nat
  closedOf : Nat → Bool

/-- Python `with` statement semantics for a `return` inside the block:
`__enter__` runs, the body computes the return value, and `__exit__` runs
before the enclosing function actually returns that value. -/
def withStatement {α β σ : Type} (enter : σ → α × σ) (exitF : α → σ → σ)
    (body : α → σ → β × σ) (s : σ) : β × σ :=
  let (x, s1) := enter s
  let (r, s2) := body x s1
  (r, exitF x s2)

/-- `SSHConnection.__enter__` on the successful path: creates a fresh,
connected (not closed) `paramiko.SSHClient` and returns it. -/
def sshEnter (w : SSHWorld) : Nat × SSHWorld :=
  (w.nextId,
   { nextId := w.nextId + 1,
     closedOf := fun i => if i = w.nextId then false else w.closedOf i })

/-- `SSHConnection.__exit__`: calls `self.client.close()`. -/
def sshExit (c : Nat) (w : SSHWorld) : SSHWorld :=
  { w with closedOf := fun i => if i = c then true else w.closedOf i }

/-- Embedding of the successful path of `validate_remote_connection` in
`swimlib/f5/run.py`: `with SSHConnection(ip, username, password) as
ssh_client: return ssh_client` — the client is returned from inside the
with-block. -/
def validate_remote_connection (w : SSHWorld) : Nat × SSHWorld :=
  withStatement sshEnter sshExit (fun c s => (c, s)) w

/-! ## Theorems for the claims -/

/-- C3: in both transfer implementations, an artifact already present at
its remote path with a remote checksum equal to its expected checksum
causes zero `put` operations for that artifact: the per-artifact step
performs exactly a `stat` and an `md5sum`, returns the remote state
unchanged, and the loop continues to the next artifact on that unchanged
state. -/
theorem c3_transfer_idempotent (fs : RemoteFS) (a : CopyArtifact)
    (rest : List CopyArtifact) (h : fs.file a.remote_path = some a.md5) :
    F5Copy.copyOne fs a = ([.stat a.remote_path, .md5sum a.remote_path], .ok fs) ∧
    LibCopy.copyOne fs a = ([.stat a.remote_path, .md5sum a.remote_path], .ok fs) ∧
    F5Copy.sftp_copy_artifacts fs (a :: rest) =
      (.stat a.remote_path :: .md5sum a.remote_path ::
         (F5Copy.sftp_copy_artifacts fs rest).1,
       (F5Copy.sftp_copy_artifacts fs rest).2) ∧
    LibCopy.sftp_copy_artifacts fs (a :: rest) =
      (.stat a.remote_path :: .md5sum a.remote_path ::
         (LibCopy.sftp_copy_artifacts fs rest).1,
       (LibCopy.sftp_copy_artifacts fs rest).2) := by
  have hf5 : F5Copy.copyOne fs a =
      ([.stat a.remote_path, .md5sum a.remote_path], .ok fs) := by
    simp [F5Copy.copyOne, h]
  have hlib : LibCopy.copyOne fs a =
      ([.stat a.remote_path, .md5sum a.remote_path], .ok fs) := by
    simp [LibCopy.copyOne, h]
  refine ⟨hf5, hlib, ?_, ?_⟩
  · simp [F5Copy.sftp_copy_artifacts, hf5]
  · simp [LibCopy.sftp_copy_artifacts, hlib]

/-- Witness for C3 at a concrete remote state with the first artifact
already present and valid. -/
theorem c3_transfer_idempotent_witness :
    F5Copy.copyOne
        { file := fun p => if p = "/shared/images/a.iso" then some "0123" else none,
          putDigest := fun _ _ => "0123" }
        { local_path := "/local/a.iso", remote_path := "/shared/images/a.iso",
          md5 := "0123" }
      = ([.stat "/shared/images/a.iso", .md5sum "/shared/images/a.iso"],
         .ok { file := fun p => if p = "/shared/images/a.iso" then some "0123" else none,
               putDigest := fun _ _ => "0123" }) :=
  (c3_transfer_idempotent
    { file := fun p => if p = "/shared/images/a.iso" then some "0123" else none,
      putDigest := fun _ _ => "0123" }
    { local_path := "/local/a.iso", remote_path := "/shared/images/a.iso",
      md5 := "0123" }
    [] (by simp)).1

/-- C5: in both staging implementations, when the version query returns
the target version (a device's running version is a nonempty string), the
operation returns immediately having issued exactly one remote command —
the version query — and no install command. -/
theorem c5_stage_noop (dev : StageDevice) (artifacts : List StageArtifact)
    (target_version : String) (hne : dev.versionOut ≠ "")
    (heq : dev.versionOut = target_version) :
    F5Stage.stage_artifacts dev artifacts target_version = ([versionCmd], .ok ()) ∧
    LibStage.stage_artifacts dev artifacts target_version = ([versionCmd], .ok ()) := by
  constructor
  · simp [F5Stage.stage_artifacts, heq]
  · rw [heq] at hne
    simp [LibStage.stage_artifacts, LibStage.get_current_version, hne, heq]

/-- Witness for C5 at a concrete device already running the target
version. -/
theorem c5_stage_noop_witness :
    F5Stage.stage_artifacts
        { versionOut := "21.0.0", volumeOut := "HD1.2",
          installExit := fun _ => 0, installStderr := fun _ => "" }
        [{ remote_path := "/shared/images/BIGIP-21.0.0.iso",
           filename := "BIGIP-21.0.0.iso" }] "21.0.0"
      = ([versionCmd], .ok ()) ∧
    LibStage.stage_artifacts
        { versionOut := "21.0.0", volumeOut := "HD1.2",
          installExit := fun _ => 0, installStderr := fun _ => "" }
        [{ remote_path := "/shared/images/BIGIP-21.0.0.iso",
           filename := "BIGIP-21.0.0.iso" }] "21.0.0"
      = ([versionCmd], .ok ()) :=
  c5_stage_noop
    { versionOut := "21.0.0", volumeOut := "HD1.2",
      installExit := fun _ => 0, installStderr := fun _ => "" }
    [{ remote_path := "/shared/images/BIGIP-21.0.0.iso",
       filename := "BIGIP-21.0.0.iso" }] "21.0.0" (by decide) rfl

/-- C10: `validate_remote_connection` returns the SSH client from inside
the `with SSHConnection(...)` block, so `__exit__` has already invoked
`close()` on it by the time it reaches the caller: on every successful
call the returned session is closed. -/
theorem c10_returns_closed_session (w : SSHWorld) :
    ((validate_remote_connection w).2).closedOf (validate_remote_connection w).1
      = true := by
  simp [validate_remote_connection, withStatement, sshEnter, sshExit]

/-- C2 counterexample: in `f5.actions.image_stage.stage_artifacts` — the
staging implementation the F5 orchestrator invokes — an install command
whose exit status is non-zero (here every install exits 1) raises no
`StagingError` and does not stop the loop: the run returns successfully
and the second artifact's install command is still issued. -/
theorem c2_staging_counterexample :
    F5Stage.stage_artifacts
        { versionOut := "17.1.1", volumeOut := "HD1.2",
          installExit := fun _ => 1, installStderr := fun _ => "install failed" }
        [{ remote_path := "/shared/images/a1.iso", filename := "a1.iso" },
         { remote_path := "/shared/images/a2.iso", filename := "a2.iso" }]
        "21.0.0"
      = ([versionCmd, volumeCmd,
          installCmd "/shared/images/a1.iso" "HD1.2",
          installCmd "/shared/images/a2.iso" "HD1.2"], .ok ()) := rfl

/-- C6 counterexample: in `f5.actions.image_stage` — the staging
implementation the F5 orchestrator invokes — when the versions differ and
the inactive-volume query returns empty output (no inactive slot
identifiable), no `StagingError` is raised; instead an install command
with an empty volume name is issued and the run returns successfully. -/
theorem c6_staging_counterexample :
    F5Stage.stage_artifacts
        { versionOut := "17.1.1", volumeOut := "",
          installExit := fun _ => 0, installStderr := fun _ => "" }
        [{ remote_path := "/shared/images/a1.iso", filename := "a1.iso" }]
        "21.0.0"
      = ([versionCmd, volumeCmd, installCmd "/shared/images/a1.iso" ""], .ok ()) :=
  rfl

/-- C6 (amended): in `swimlib.image_stage.stage_artifacts`, whenever the
current version (nonempty) differs from the target and no inactive volume
can be identified (empty volume query output), the operation fails with
`ImageStagingError` after exactly the version and volume queries — no
install command is issued. -/
theorem c6_no_inactive_volume_fails (dev : StageDevice)
    (artifacts : List StageArtifact) (target_version : String)
    (hne : dev.versionOut ≠ "") (hdiff : dev.versionOut ≠ target_version)
    (hvol : dev.volumeOut = "") :
    LibStage.stage_artifacts dev artifacts target_version =
      ([versionCmd, volumeCmd],
       .error (.imageStagingError
         "Failed to get target volume: Unable to determine target volume")) := by
  simp [LibStage.stage_artifacts, LibStage.get_current_version,
    LibStage.get_target_volume, hne, hdiff, hvol]

/-- Witness for the amended C6 at a concrete device whose volume query
returns nothing. -/
theorem c6_no_inactive_volume_fails_witness :
    LibStage.stage_artifacts
        { versionOut := "17.1.1", volumeOut := "",
          installExit := fun _ => 0, installStderr := fun _ => "" }
        [{ remote_path := "/shared/images/a1.iso", filename := "a1.iso" }]
        "21.0.0"
      = ([versionCmd, volumeCmd],
         .error (.imageStagingError
           "Failed to get target volume: Unable to determine target volume")) :=
  c6_no_inactive_volume_fails
    { versionOut := "17.1.1", volumeOut := "",
      installExit := fun _ => 0, installStderr := fun _ => "" }
    [{ remote_path := "/shared/images/a1.iso", filename := "a1.iso" }]
    "21.0.0" (by decide) (by decide) rfl

/-- The install loop of `swimlib.image_stage.stage_artifacts` processes a
prefix whose install commands all exit 0 by issuing exactly those commands
and continuing with the rest of the list. -/
theorem libstage_installLoop_ok_init (dev : StageDevice) (vol : String)
    (pre rest : List StageArtifact)
    (h : ∀ b ∈ pre, dev.installExit (installCmd b.remote_path vol) = 0) :
    LibStage.installLoop dev vol (pre ++ rest) =
      ((pre.map fun b => installCmd b.remote_path vol)
         ++ (LibStage.installLoop dev vol rest).1,
       (LibStage.installLoop dev vol rest).2) := by
  induction pre with
  | nil => simp
  | cons b pre ih =>
      have hb : dev.installExit (installCmd b.remote_path vol) = 0 :=
        h b (List.mem_cons_self b pre)
      have ih' := ih (fun c hc => h c (List.mem_cons_of_mem b hc))
      simp [LibStage.installLoop, hb, ih']

/-- C2 (amended): in `swimlib.image_stage.stage_artifacts`, if staging
proceeds (versions differ, a target volume exists), every artifact before
`a` installs with exit status 0, and `a`'s install command exits non-zero,
the operation fails with `ImageStagingError` naming `a`'s filename and the
command's stderr, and the trace ends at `a`'s install command: no install
command is issued for any artifact after `a`. -/
theorem c2_fail_fast_staging (dev : StageDevice) (pre post : List StageArtifact)
    (a : StageArtifact) (target_version : String)
    (hne : dev.versionOut ≠ "") (hdiff : dev.versionOut ≠ target_version)
    (hvol : dev.volumeOut ≠ "")
    (hpre : ∀ b ∈ pre, dev.installExit (installCmd b.remote_path dev.volumeOut) = 0)
    (ha : dev.installExit (installCmd a.remote_path dev.volumeOut) ≠ 0) :
    LibStage.stage_artifacts dev (pre ++ a :: post) target_version =
      (versionCmd :: volumeCmd ::
         ((pre.map fun b => installCmd b.remote_path dev.volumeOut)
            ++ [installCmd a.remote_path dev.volumeOut]),
       .error (.imageStagingError
         ("Failed to stage " ++ a.filename ++ ": "
           ++ dev.installStderr (installCmd a.remote_path dev.volumeOut)))) := by
  have hloop := libstage_installLoop_ok_init dev dev.volumeOut pre (a :: post) hpre
  have hstep : LibStage.installLoop dev dev.volumeOut (a :: post) =
      ([installCmd a.remote_path dev.volumeOut],
       .error (.imageStagingError
         ("Failed to stage " ++ a.filename ++ ": "
           ++ dev.installStderr (installCmd a.remote_path dev.volumeOut)))) := by
    simp [LibStage.installLoop, ha]
  simp [LibStage.stage_artifacts, LibStage.get_current_version,
    LibStage.get_target_volume, hne, hdiff, hvol, hloop, hstep]

/-- Witness for the amended C2: three artifacts, the second one's install
command exits 1; the result is the named `ImageStagingError` and the third
artifact's install command never appears in the trace. -/
theorem c2_fail_fast_staging_witness :
    LibStage.stage_artifacts
        { versionOut := "17.1.1", volumeOut := "HD1.2",
          installExit := fun c =>
            if c = installCmd "/shared/images/a2.iso" "HD1.2" then 1 else 0,
          installStderr := fun _ => "disk error" }
        [{ remote_path := "/shared/images/a1.iso", filename := "a1.iso" },
         { remote_path := "/shared/images/a2.iso", filename := "a2.iso" },
         { remote_path := "/shared/images/a3.iso", filename := "a3.iso" }]
        "21.0.0"
      = (versionCmd :: volumeCmd ::
           ([installCmd "/shared/images/a1.iso" "HD1.2"]
              ++ [installCmd "/shared/images/a2.iso" "HD1.2"]),
         .error (.imageStagingError ("Failed to stage " ++ "a2.iso" ++ ": " ++ "disk error"))) := by
  have h := c2_fail_fast_staging
    { versionOut := "17.1.1", volumeOut := "HD1.2",
      installExit := fun c =>
        if c = installCmd "/shared/images/a2.iso" "HD1.2" then 1 else 0,
      installStderr := fun _ => "disk error" }
    [{ remote_path := "/shared/images/a1.iso", filename := "a1.iso" }]
    [{ remote_path := "/shared/images/a3.iso", filename := "a3.iso" }]
    { remote_path := "/shared/images/a2.iso", filename := "a2.iso" }
    "21.0.0" (by decide) (by decide) (by decide)
    (by decide) (by decide)
  simpa using h

/-- A prefix of the artifact list that
`f5.actions.image_copy.sftp_copy_artifacts` processes without an exception
contributes its events and its final remote state, after which the loop
continues with the remaining artifacts. -/
theorem f5copy_loop_ok_init (pre : List CopyArtifact) (fs fs1 : RemoteFS)
    (rest : List CopyArtifact) (ev0 : List CopyEvent)
    (h : F5Copy.sftp_copy_artifacts fs pre = (ev0, .ok fs1)) :
    F5Copy.sftp_copy_artifacts fs (pre ++ rest) =
      (ev0 ++ (F5Copy.sftp_copy_artifacts fs1 rest).1,
       (F5Copy.sftp_copy_artifacts fs1 rest).2) := by
  induction pre generalizing fs ev0 with
  | nil =>
      simp [F5Copy.sftp_copy_artifacts] at h
      obtain ⟨rfl, rfl⟩ := h
      simp
  | cons a pre ih =>
      rcases hc : F5Copy.copyOne fs a with ⟨ev, r⟩
      cases r with
      | ok fs' =>
          rcases hp : F5Copy.sftp_copy_artifacts fs' pre with ⟨ev2, r2⟩
          have hcons : F5Copy.sftp_copy_artifacts fs (a :: pre) = (ev ++ ev2, r2) := by
            simp [F5Copy.sftp_copy_artifacts, hc, hp]
          rw [hcons] at h
          cases r2 with
          | ok fs2 =>
              have hev : ev ++ ev2 = ev0 := congrArg Prod.fst h
              have hfs : fs2 = fs1 := by
                have := congrArg Prod.snd h
                simpa using this
              have hp' : F5Copy.sftp_copy_artifacts fs' pre = (ev2, .ok fs1) := by
                rw [hp, hfs]
              have ihh := ih fs' ev2 hp'
              have hstep : F5Copy.sftp_copy_artifacts fs ((a :: pre) ++ rest) =
                  (ev ++ (ev2 ++ (F5Copy.sftp_copy_artifacts fs1 rest).1),
                   (F5Copy.sftp_copy_artifacts fs1 rest).2) := by
                simp [F5Copy.sftp_copy_artifacts, hc, ihh]
              rw [hstep, ← hev]
              simp
          | error e =>
              exact absurd (congrArg Prod.snd h) (by simp)
      | error e =>
          have hcons : F5Copy.sftp_copy_artifacts fs (a :: pre) = (ev, .error e) := by
            simp [F5Copy.sftp_copy_artifacts, hc]
          rw [hcons] at h
          exact absurd (congrArg Prod.snd h) (by simp)

/-- A prefix of the artifact list that
`swimlib.image_copy.sftp_copy_artifacts` processes without an exception
contributes its events and its final remote state, after which the loop
continues with the remaining artifacts. -/
theorem libcopy_loop_ok_init (pre : List CopyArtifact) (fs fs1 : RemoteFS)
    (rest : List CopyArtifact) (ev0 : List CopyEvent)
    (h : LibCopy.sftp_copy_artifacts fs pre = (ev0, .ok fs1)) :
    LibCopy.sftp_copy_artifacts fs (pre ++ rest) =
      (ev0 ++ (LibCopy.sftp_copy_artifacts fs1 rest).1,
       (LibCopy.sftp_copy_artifacts fs1 rest).2) := by
  induction pre generalizing fs ev0 with
  | nil =>
      simp [LibCopy.sftp_copy_artifacts] at h
      obtain ⟨rfl, rfl⟩ := h
      simp
  | cons a pre ih =>
      rcases hc : LibCopy.copyOne fs a with ⟨ev, r⟩
      cases r with
      | ok fs' =>
          rcases hp : LibCopy.sftp_copy_artifacts fs' pre with ⟨ev2, r2⟩
          have hcons : LibCopy.sftp_copy_artifacts fs (a :: pre) = (ev ++ ev2, r2) := by
            simp [LibCopy.sftp_copy_artifacts, hc, hp]
          rw [hcons] at h
          cases r2 with
          | ok fs2 =>
              have hev : ev ++ ev2 = ev0 := congrArg Prod.fst h
              have hfs : fs2 = fs1 := by
                have := congrArg Prod.snd h
                simpa using this
              have hp' : LibCopy.sftp_copy_artifacts fs' pre = (ev2, .ok fs1) := by
                rw [hp, hfs]
              have ihh := ih fs' ev2 hp'
              have hstep : LibCopy.sftp_copy_artifacts fs ((a :: pre) ++ rest) =
                  (ev ++ (ev2 ++ (LibCopy.sftp_copy_artifacts fs1 rest).1),
                   (LibCopy.sftp_copy_artifacts fs1 rest).2) := by
                simp [LibCopy.sftp_copy_artifacts, hc, ihh]
              rw [hstep, ← hev]
              simp
          | error e =>
              exact absurd (congrArg Prod.snd h) (by simp)
      | error e =>
          have hcons : LibCopy.sftp_copy_artifacts fs (a :: pre) = (ev, .error e) := by
            simp [LibCopy.sftp_copy_artifacts, hc]
          rw [hcons] at h
          exact absurd (congrArg Prod.snd h) (by simp)


/-- C4: in both transfer implementations, an artifact that is transferred
has its remote checksum re-computed after the write; when it differs from
the expected checksum the whole operation fails with an error naming the
artifact's remote path, and the trace ends with that artifact — no
subsequent artifact in the list is processed.  The first conjunct covers
`f5.actions.image_copy` for an absent remote file, the second for a
present remote file whose checksum mismatches (silent fall-through to
transfer), the third covers `swimlib.image_copy` (which only transfers
absent files). -/
theorem c4_post_transfer_verification (fs fs1 : RemoteFS)
    (pre post : List CopyArtifact) (a : CopyArtifact) (ev0 : List CopyEvent)
    (hbad : fs1.putDigest a.local_path a.remote_path ≠ a.md5) :
    (F5Copy.sftp_copy_artifacts fs pre = (ev0, .ok fs1) →
      fs1.file a.remote_path = none →
      F5Copy.sftp_copy_artifacts fs (pre ++ a :: post) =
        (ev0 ++ [.stat a.remote_path, .put a.local_path a.remote_path,
                 .md5sum a.remote_path],
         .error (.assertionError ("MD5 mismatch: " ++ a.remote_path)))) ∧
    (∀ d, F5Copy.sftp_copy_artifacts fs pre = (ev0, .ok fs1) →
      fs1.file a.remote_path = some d → d ≠ a.md5 →
      F5Copy.sftp_copy_artifacts fs (pre ++ a :: post) =
        (ev0 ++ [.stat a.remote_path, .md5sum a.remote_path,
                 .put a.local_path a.remote_path, .md5sum a.remote_path],
         .error (.assertionError ("MD5 mismatch: " ++ a.remote_path)))) ∧
    (LibCopy.sftp_copy_artifacts fs pre = (ev0, .ok fs1) →
      fs1.file a.remote_path = none →
      LibCopy.sftp_copy_artifacts fs (pre ++ a :: post) =
        (ev0 ++ [.stat a.remote_path, .put a.local_path a.remote_path,
                 .md5sum a.remote_path],
         .error (.checksumMismatchError
           ("MD5 mismatch after transfer for " ++ a.remote_path
             ++ ": expected " ++ a.md5 ++ ", got "
             ++ fs1.putDigest a.local_path a.remote_path)))) := by
  refine ⟨?_, ?_, ?_⟩
  · intro hpre habsent
    have hone : F5Copy.copyOne fs1 a =
        ([.stat a.remote_path, .put a.local_path a.remote_path,
          .md5sum a.remote_path],
         .error (.assertionError ("MD5 mismatch: " ++ a.remote_path))) := by
      simp [F5Copy.copyOne, habsent, hbad]
    have htail : F5Copy.sftp_copy_artifacts fs1 (a :: post) =
        ([.stat a.remote_path, .put a.local_path a.remote_path,
          .md5sum a.remote_path],
         .error (.assertionError ("MD5 mismatch: " ++ a.remote_path))) := by
      simp [F5Copy.sftp_copy_artifacts, hone]
    rw [f5copy_loop_ok_init pre fs fs1 (a :: post) ev0 hpre, htail]
  · intro d hpre hpresent hmis
    have hone : F5Copy.copyOne fs1 a =
        ([.stat a.remote_path, .md5sum a.remote_path,
          .put a.local_path a.remote_path, .md5sum a.remote_path],
         .error (.assertionError ("MD5 mismatch: " ++ a.remote_path))) := by
      simp [F5Copy.copyOne, hpresent, hmis, hbad]
    have htail : F5Copy.sftp_copy_artifacts fs1 (a :: post) =
        ([.stat a.remote_path, .md5sum a.remote_path,
          .put a.local_path a.remote_path, .md5sum a.remote_path],
         .error (.assertionError ("MD5 mismatch: " ++ a.remote_path))) := by
      simp [F5Copy.sftp_copy_artifacts, hone]
    rw [f5copy_loop_ok_init pre fs fs1 (a :: post) ev0 hpre, htail]
  · intro hpre habsent
    have hone : LibCopy.copyOne fs1 a =
        ([.stat a.remote_path, .put a.local_path a.remote_path,
          .md5sum a.remote_path],
         .error (.checksumMismatchError
           ("MD5 mismatch after transfer for " ++ a.remote_path
             ++ ": expected " ++ a.md5 ++ ", got "
             ++ fs1.putDigest a.local_path a.remote_path))) := by
      simp [LibCopy.copyOne, habsent, hbad]
    have htail : LibCopy.sftp_copy_artifacts fs1 (a :: post) =
        ([.stat a.remote_path, .put a.local_path a.remote_path,
          .md5sum a.remote_path],
         .error (.checksumMismatchError
           ("MD5 mismatch after transfer for " ++ a.remote_path
             ++ ": expected " ++ a.md5 ++ ", got "
             ++ fs1.putDigest a.local_path a.remote_path))) := by
      simp [LibCopy.sftp_copy_artifacts, hone]
    rw [libcopy_loop_ok_init pre fs fs1 (a :: post) ev0 hpre, htail]

/-- Witness for C4: an empty remote file system, a corrupting `put` (every
transfer leaves digest `"ffff"` instead of the expected `"0123"`), and a
second artifact that is never reached. -/
theorem c4_post_transfer_verification_witness :
    F5Copy.sftp_copy_artifacts
        { file := fun _ => none, putDigest := fun _ _ => "ffff" }
        [{ local_path := "/local/a.iso", remote_path := "/shared/images/a.iso",
           md5 := "0123" },
         { local_path := "/local/b.iso", remote_path := "/shared/images/b.iso",
           md5 := "4567" }] =
      ([.stat "/shared/images/a.iso", .put "/local/a.iso" "/shared/images/a.iso",
        .md5sum "/shared/images/a.iso"],
       .error (.assertionError ("MD5 mismatch: " ++ "/shared/images/a.iso"))) ∧
    LibCopy.sftp_copy_artifacts
        { file := fun _ => none, putDigest := fun _ _ => "ffff" }
        [{ local_path := "/local/a.iso", remote_path := "/shared/images/a.iso",
           md5 := "0123" },
         { local_path := "/local/b.iso", remote_path := "/shared/images/b.iso",
           md5 := "4567" }] =
      ([.stat "/shared/images/a.iso", .put "/local/a.iso" "/shared/images/a.iso",
        .md5sum "/shared/images/a.iso"],
       .error (.checksumMismatchError
         ("MD5 mismatch after transfer for " ++ "/shared/images/a.iso"
           ++ ": expected " ++ "0123" ++ ", got " ++ "ffff"))) := by
  have h := c4_post_transfer_verification
    { file := fun _ => none, putDigest := fun _ _ => "ffff" }
    { file := fun _ => none, putDigest := fun _ _ => "ffff" }
    []
    [{ local_path := "/local/b.iso", remote_path := "/shared/images/b.iso",
       md5 := "4567" }]
    { local_path := "/local/a.iso", remote_path := "/shared/images/a.iso",
      md5 := "0123" }
    [] (by decide)
  refine ⟨?_, ?_⟩
  · have := h.1 rfl rfl
    simpa using this
  · have := h.2.2 rfl rfl
    simpa using this

/-- Every exception `f5.actions.image_copy.sftp_copy_artifacts` can raise
is the `AssertionError` of its post-transfer check; it has no
`ChecksumMismatchError` (that class lives only in `swimlib/image_copy.py`). -/
theorem f5copy_errors_are_assertions (l : List CopyArtifact) (fs : RemoteFS)
    (e : PyError) (h : (F5Copy.sftp_copy_artifacts fs l).2 = .error e) :
    ∃ m, e = .assertionError m := by
  induction l generalizing fs with
  | nil => simp [F5Copy.sftp_copy_artifacts] at h
  | cons a rest ih =>
      rcases hc : F5Copy.copyOne fs a with ⟨ev, r⟩
      cases r with
      | ok fs' =>
          have : (F5Copy.sftp_copy_artifacts fs (a :: rest)).2 =
              (F5Copy.sftp_copy_artifacts fs' rest).2 := by
            simp [F5Copy.sftp_copy_artifacts, hc]
          rw [this] at h
          exact ih fs' h
      | error e' =>
          have hstep : (F5Copy.sftp_copy_artifacts fs (a :: rest)).2 = .error e' := by
            simp [F5Copy.sftp_copy_artifacts, hc]
          rw [hstep] at h
          have he : e' = e := by simpa using h
          subst he
          have : ∃ m, e' = PyError.assertionError m := by
            unfold F5Copy.copyOne at hc
            rcases hf : fs.file a.remote_path with _ | d
            · rw [hf] at hc
              by_cases hd : fs.putDigest a.local_path a.remote_path = a.md5
              · simp [hd] at hc
              · simp [hd] at hc
                exact ⟨_, hc.2.symm⟩
            · rw [hf] at hc
              by_cases h1 : d = a.md5
              · simp [h1] at hc
              · by_cases hd : fs.putDigest a.local_path a.remote_path = a.md5
                · simp [h1, hd] at hc
                · simp [h1, hd] at hc
                  exact ⟨_, hc.2.symm⟩
          exact this

/-- C9: on a remote state where the artifact is already present but its
checksum differs from the expected one, the two duplicated transfer
implementations disagree: `swimlib.image_copy.sftp_copy_artifacts` raises
`ChecksumMismatchError` for that artifact, while
`f5.actions.image_copy.sftp_copy_artifacts` silently falls through and
re-transfers the file (`put` appears in its trace, and it can never raise
a `ChecksumMismatchError`), so the two functions differ at every such
input. -/
theorem c9_duplicated_copy_divergence (fs : RemoteFS) (a : CopyArtifact)
    (rest : List CopyArtifact) (d : String)
    (hp : fs.file a.remote_path = some d) (hm : d ≠ a.md5) :
    LibCopy.sftp_copy_artifacts fs (a :: rest) =
      ([.stat a.remote_path, .md5sum a.remote_path],
       .error (.checksumMismatchError
         ("MD5 mismatch for " ++ a.remote_path ++ ": expected " ++ a.md5
           ++ ", got " ++ d))) ∧
    CopyEvent.put a.local_path a.remote_path ∈
      (F5Copy.sftp_copy_artifacts fs (a :: rest)).1 ∧
    F5Copy.sftp_copy_artifacts fs (a :: rest) ≠
      LibCopy.sftp_copy_artifacts fs (a :: rest) := by
  have hlib : LibCopy.sftp_copy_artifacts fs (a :: rest) =
      ([.stat a.remote_path, .md5sum a.remote_path],
       .error (.checksumMismatchError
         ("MD5 mismatch for " ++ a.remote_path ++ ": expected " ++ a.md5
           ++ ", got " ++ d))) := by
    have hone : LibCopy.copyOne fs a =
        ([.stat a.remote_path, .md5sum a.remote_path],
         .error (.checksumMismatchError
           ("MD5 mismatch for " ++ a.remote_path ++ ": expected " ++ a.md5
             ++ ", got " ++ d))) := by
      simp [LibCopy.copyOne, hp, hm]
    simp [LibCopy.sftp_copy_artifacts, hone]
  refine ⟨hlib, ?_, ?_⟩
  · by_cases hd : fs.putDigest a.local_path a.remote_path = a.md5
    · have hone : F5Copy.copyOne fs a =
          ([.stat a.remote_path, .md5sum a.remote_path,
            .put a.local_path a.remote_path, .md5sum a.remote_path],
           .ok (fs.putFile a.local_path a.remote_path)) := by
        simp [F5Copy.copyOne, hp, hm, hd]
      simp [F5Copy.sftp_copy_artifacts, hone]
    · have hone : F5Copy.copyOne fs a =
          ([.stat a.remote_path, .md5sum a.remote_path,
            .put a.local_path a.remote_path, .md5sum a.remote_path],
           .error (.assertionError ("MD5 mismatch: " ++ a.remote_path))) := by
        simp [F5Copy.copyOne, hp, hm, hd]
      simp [F5Copy.sftp_copy_artifacts, hone]
  · intro heq
    have h2 : (F5Copy.sftp_copy_artifacts fs (a :: rest)).2 =
        .error (.checksumMismatchError
          ("MD5 mismatch for " ++ a.remote_path ++ ": expected " ++ a.md5
            ++ ", got " ++ d)) := by
      rw [heq, hlib]
    obtain ⟨m, hmline⟩ := f5copy_errors_are_assertions (a :: rest) fs _ h2
    simp at hmline

/-- Witness for C9: a concrete remote state where the artifact is present
with digest `"ffff"` while `"0123"` is expected. -/
theorem c9_duplicated_copy_divergence_witness :
    LibCopy.sftp_copy_artifacts
        { file := fun p => if p = "/shared/images/a.iso" then some "ffff" else none,
          putDigest := fun _ _ => "0123" }
        [{ local_path := "/local/a.iso", remote_path := "/shared/images/a.iso",
           md5 := "0123" }] =
      ([.stat "/shared/images/a.iso", .md5sum "/shared/images/a.iso"],
       .error (.checksumMismatchError
         ("MD5 mismatch for " ++ "/shared/images/a.iso" ++ ": expected "
           ++ "0123" ++ ", got " ++ "ffff"))) ∧
    CopyEvent.put "/local/a.iso" "/shared/images/a.iso" ∈
      (F5Copy.sftp_copy_artifacts
        { file := fun p => if p = "/shared/images/a.iso" then some "ffff" else none,
          putDigest := fun _ _ => "0123" }
        [{ local_path := "/local/a.iso", remote_path := "/shared/images/a.iso",
           md5 := "0123" }]).1 ∧
    F5Copy.sftp_copy_artifacts
        { file := fun p => if p = "/shared/images/a.iso" then some "ffff" else none,
          putDigest := fun _ _ => "0123" }
        [{ local_path := "/local/a.iso", remote_path := "/shared/images/a.iso",
           md5 := "0123" }] ≠
      LibCopy.sftp_copy_artifacts
        { file := fun p => if p = "/shared/images/a.iso" then some "ffff" else none,
          putDigest := fun _ _ => "0123" }
        [{ local_path := "/local/a.iso", remote_path := "/shared/images/a.iso",
           md5 := "0123" }] :=
  c9_duplicated_copy_divergence
    { file := fun p => if p = "/shared/images/a.iso" then some "ffff" else none,
      putDigest := fun _ _ => "0123" }
    { local_path := "/local/a.iso", remote_path := "/shared/images/a.iso",
      md5 := "0123" }
    [] "ffff" (by simp) (by decide)

/-- C1: `main`'s execution-depth gating.  With the device's depth set to
copy (`execution_type == "image_copy"`), no staging or activation step is
ever invoked, whatever happens; with depth stage (`"image_stage"`),
activation is never invoked, and when the remote operations succeed the
run invokes exactly pre-validation, transfer, staging in that order; with
depth upgrade (`"image_upgrade"`) a successful run invokes pre-validation,
transfer, staging, activation in that order. -/
theorem c1_depth_gating (w : RunWorld) :
    (w.executionType = some "image_copy" →
      Phase.stage ∉ (mainRun w).1 ∧ Phase.upgrade ∉ (mainRun w).1) ∧
    (w.executionType = some "image_stage" →
      Phase.upgrade ∉ (mainRun w).1 ∧
        (w.allOk → (mainRun w).1 =
          [.lookup, .connect, .storage, .copy, .stage])) ∧
    (w.executionType = some "image_upgrade" → w.allOk →
      (mainRun w).1 =
        [.lookup, .connect, .storage, .copy, .stage, .upgrade]) := by
  obtain ⟨et, lk, cn, st, cp, sg, up⟩ := w
  refine ⟨?_, ?_, ?_⟩
  · intro h
    have h' : et = some "image_copy" := h
    subst h'
    cases lk <;> cases cn <;> cases st <;> cases cp <;> cases sg <;> cases up <;>
      decide
  · intro h
    have h' : et = some "image_stage" := h
    subst h'
    cases lk <;> cases cn <;> cases st <;> cases cp <;> cases sg <;> cases up <;>
      decide
  · intro h
    have h' : et = some "image_upgrade" := h
    subst h'
    cases lk <;> cases cn <;> cases st <;> cases cp <;> cases sg <;> cases up <;>
      decide

/-- Witness for C1 at concrete worlds: an all-success upgrade run invokes
all six steps in order, an all-success stage run stops after staging, and
a copy run with a failing transfer still never reaches staging. -/
theorem c1_depth_gating_witness :
    (mainRun { executionType := some "image_upgrade", lookupOk := true,
               connect := .ok, storageOk := true, copyOk := true,
               stageOk := true, upgradeOk := true }).1 =
      [.lookup, .connect, .storage, .copy, .stage, .upgrade] ∧
    (mainRun { executionType := some "image_stage", lookupOk := true,
               connect := .ok, storageOk := true, copyOk := true,
               stageOk := true, upgradeOk := true }).1 =
      [.lookup, .connect, .storage, .copy, .stage] ∧
    Phase.stage ∉
      (mainRun { executionType := some "image_copy", lookupOk := true,
                 connect := .ok, storageOk := true, copyOk := false,
                 stageOk := true, upgradeOk := true }).1 :=
  ⟨(c1_depth_gating _).2.2 rfl ⟨rfl, rfl, rfl, rfl, rfl, rfl⟩,
   ((c1_depth_gating _).2.1 rfl).2 ⟨rfl, rfl, rfl, rfl, rfl, rfl⟩,
   ((c1_depth_gating _).1 rfl).1⟩

/-- C7: a dry-run execution does stop after the three pre-validation
steps, but a dry-run pre-validation failure is not resolved as a success.
At the concrete failing input (a dry-run device whose software lookup
raises), `main` invokes only the lookup step and the process crashes: the
`except` handler's call `asdb.pre_validation_status(device, status)`
passes two positional arguments to a one-parameter method and raises
`TypeError`, so the process exits 1 and no status is resolved.  Moreover
`run.py`'s module-level `ASDBClient()` carries no device context, so even
a reached `resolve_execution` would take the `fail_device_execution`
branch (`""` is not `"dry_run"`), again exit status 1 — against the
claimed exit 0 / "completed".  The successful dry-run path (third
conjunct) does stop after pre-validation as claimed. -/
theorem c7_dry_run_resolution_bug :
    mainRun { executionType := some "dry_run", lookupOk := false,
              connect := .ok, storageOk := true, copyOk := true,
              stageOk := true, upgradeOk := true }
      = ([Phase.lookup], .crashed) ∧
    resolveExecutionPasses runModuleClientExecutionType = false ∧
    mainRun { executionType := some "dry_run", lookupOk := true,
              connect := .ok, storageOk := true, copyOk := true,
              stageOk := true, upgradeOk := true }
      = ([Phase.lookup, .connect, .storage], .completed) := by
  decide

/-- C8 counterexample: `resolve_execution` does not treat an execution
depth outside the defined set with dry-run semantics — its pass branch
requires `execution_type` to lower-case to exactly `"dry_run"`, so an
unknown depth such as `"full_send"` resolves as a failure where
`"dry_run"` resolves as a success. -/
theorem c8_resolution_counterexample :
    resolveExecutionPasses (some "full_send") = false ∧
    resolveExecutionPasses (some "dry_run") = true := by
  decide

/-- C8 (amended): a depth value outside
`{dry_run, image_copy, image_stage, image_upgrade}` makes `main` behave
exactly like `dry_run` in phase selection and outcome — only
pre-validation runs, no transfer, staging or activation; but it is not
given dry-run resolution semantics: `resolve_execution`'s pass branch
requires the execution type to be `"dry_run"` (case-insensitively), so an
unknown depth resolves as a failure. -/
theorem c8_unknown_depth_gating (w : RunWorld) (et : String)
    (h : w.executionType = some et) (h1 : et ≠ "dry_run")
    (h2 : et ≠ "image_copy") (h3 : et ≠ "image_stage")
    (h4 : et ≠ "image_upgrade") :
    mainRun w = mainRun { w with executionType := some "dry_run" } ∧
    (pyLower et ≠ "dry_run" → resolveExecutionPasses (some et) = false) := by
  constructor
  · have hpv : preValidation { w with executionType := some "dry_run" } =
        preValidation w := rfl
    rcases hq : preValidation w with ⟨ev, oc⟩
    cases oc with
    | crashed => simp [mainRun, hq, hpv, h]
    | completed =>
        simp [mainRun, hq, hpv, h, h1, h2, h3, h4, copyGate, stageGate,
          upgradeGate]
  · intro hl
    simpa [resolveExecutionPasses] using hl

/-- Witness for the amended C8 at the concrete unknown depth
`"full_send"`. -/
theorem c8_unknown_depth_gating_witness :
    mainRun { executionType := some "full_send", lookupOk := true,
              connect := .ok, storageOk := true, copyOk := true,
              stageOk := true, upgradeOk := true }
      = mainRun { executionType := some "dry_run", lookupOk := true,
                  connect := .ok, storageOk := true, copyOk := true,
                  stageOk := true, upgradeOk := true } ∧
    resolveExecutionPasses (some "full_send") = false := by
  have h := c8_unknown_depth_gating
    { executionType := some "full_send", lookupOk := true, connect := .ok,
      storageOk := true, copyOk := true, stageOk := true, upgradeOk := true }
    "full_send" rfl (by decide) (by decide) (by decide) (by decide)
  exact ⟨h.1, h.2 (by decide)⟩
